import Mathlib

/-!
Shallow embedding of `src/vendor/rxjs/scheduler/AsyncAction.js`: the
deferred, re-schedulable unit of work ("action") with its timer-reuse
protocol (`schedule` / `recycleAsyncId` / `requestAsyncId` / `execute` /
`_execute` / `_unsubscribe`).

The mutable JavaScript objects are modelled as a single `World` record:
the fields of the action, the identity-based action list of its scheduler,
and the runtime timer facility (`root.setInterval` / `root.clearInterval`)
as a counter of issued handles plus the list of live handles.
-/

namespace RxScheduler

/-- JavaScript values, as far as this scheduler core manipulates them:
`undefined`/`null`, booleans, numbers, strings, and `Error` objects.
`JSVal.error p` stands for `new Error(p)` built from the value `p`;
the fixed post-cancellation error carries its message as a string payload. -/
inductive JSVal : Type where
  | undef : JSVal
  | null : JSVal
  | bool : Bool → JSVal
  | num : Int → JSVal
  | str : String → JSVal
  | error : JSVal → JSVal
deriving DecidableEq

/-- JavaScript truthiness of a value (`!!e`): `undefined`, `null`, `false`,
`0` and the empty string are falsy; every `Error` object is truthy. -/
def truthy : JSVal → Bool
  | .undef => false
  | .null => false
  | .bool b => b
  | .num n => n != 0
  | .str s => s != ""
  | .error _ => true

/-- The shapes of user work this development quantifies over: return
normally, make a reentrant `this.schedule(s, d)` call on the same action
and then return, or throw a value. -/
inductive WorkSpec : Type where
  | ret : WorkSpec
  | selfReschedule : JSVal → JSVal → WorkSpec
  | throwVal : JSVal → WorkSpec
deriving DecidableEq

/-- The fields of an `AsyncAction` object: `closed` and the scheduler
back-reference come from the base `Action`, the rest are declared in
`AsyncAction_tsickle_Closure_declarations`.  `id` is the timer handle
(`none` = `undefined`); `work` is `none` once teardown nulled it;
`schedulerRef` records whether `this.scheduler` is still non-null. -/
structure ActionState : Type where
  closed : Bool
  pending : Bool
  state : JSVal
  delay : JSVal
  id : Option Nat
  work : Option WorkSpec
  schedulerRef : Bool
deriving DecidableEq

/-- The whole mutable world: the action (`act`) with its identity `aid`,
the `actions` list of the owning scheduler (holding action identities), and the
runtime timer facility: `nextId` counts issued handles, `live` lists the
currently registered timers. -/
structure World : Type where
  act : ActionState
  aid : Nat
  actions : List Nat
  nextId : Nat
  live : List Nat
deriving DecidableEq

/-- Runtime primitive `root.clearInterval(i)`: cancel the runtime timer with handle `i`. -/
def clearInterval (w : World) (i : Nat) : World :=
  { w with live := w.live.erase i }

/-- Runtime primitive `root.setInterval(scheduler.flush.bind(scheduler, this), delay)`:
register a repeating timer with the runtime, which issues fresh positive
handles.  Returns the updated runtime state and the new handle. -/
def setInterval (w : World) : World × Nat :=
  ({ w with nextId := w.nextId + 1, live := (w.nextId + 1) :: w.live },
   w.nextId + 1)

/-- Source method `AsyncAction.requestAsyncId(scheduler, id, delay)`: registers a
repeating timer whose callback flushes this action, returning the handle.
The `id` and `delay` arguments do not affect which handle is issued. -/
def requestAsyncId (w : World) (_id : Option Nat) (_delay : JSVal) :
    World × Nat :=
  setInterval w

/-- Source method `AsyncAction.recycleAsyncId(scheduler, id, delay)`: if `delay` is not
`null` and strictly equals the recorded `this.delay` of the action, the existing
handle is returned unchanged; otherwise the timer is cleared with the
runtime and `undefined` is returned. -/
def recycleAsyncId (w : World) (i : Nat) (delay : JSVal) :
    World × Option Nat :=
  if delay ≠ JSVal.null ∧ w.act.delay = delay then (w, some i)
  else (clearInterval w i, none)

/-- JavaScript truthiness of the `id` field, as tested by
`this.id || this.requestAsyncId(...)`. -/
def idTruthy : Option Nat → Bool
  | none => false
  | some n => n != 0

/-- Source method `AsyncAction.schedule(state, delay)`: no-op on a closed action;
otherwise overwrite `state`, set `pending`, recycle an existing timer id
for the new delay, record the delay, and request a fresh id when none
survived recycling. -/
def schedule (w : World) (state : JSVal) (delay : JSVal) : World :=
  if w.act.closed then w
  else
    let w1 : World := { w with act := { w.act with state := state, pending := true } }
    let w2 : World :=
      match w1.act.id with
      | some i =>
          let r := recycleAsyncId w1 i delay
          { r.1 with act := { r.1.act with id := r.2 } }
      | none => w1
    let w3 : World := { w2 with act := { w2.act with delay := delay } }
    if idTruthy w3.act.id then w3
    else
      let r := requestAsyncId w3 w3.act.id delay
      { r.1 with act := { r.1.act with id := some r.2 } }

/-- Source method `AsyncAction._unsubscribe()`: clears `work`, `delay`, `state`,
`pending` and the scheduler reference, removes this action (by identity)
from the action list of the scheduler, and, when a timer handle is present,
recycles it with a `null` delay, which forces cancellation. -/
def _unsubscribe (w : World) : World :=
  let i := w.act.id
  let w1 : World :=
    { w with
      act := { w.act with work := none, delay := JSVal.null,
                          state := JSVal.null, pending := false,
                          schedulerRef := false },
      actions := w.actions.erase w.aid }
  match i with
  | some j =>
      let r := recycleAsyncId w1 j JSVal.null
      { r.1 with act := { r.1.act with id := r.2 } }
  | none => w1

/-- Modelled from the spec: the base `Action` class (imported from
`./Action`, not among the sources).  Per the spec, `unsubscribe()`
"transitions `closed` to true exactly once; subclasses hook additional
teardown via an overridable `_unsubscribe` step invoked only on the first
call.  No-op on subsequent calls.  No error conditions; always succeeds." -/
def unsubscribe (w : World) : World :=
  if w.act.closed then w
  else _unsubscribe { w with act := { w.act with closed := true } }

/-- Invoking `this.work(state)` for the covered work shapes: its effect on
the world together with the thrown value, if any. -/
def runWork (ws : WorkSpec) (_state : JSVal) (w : World) :
    World × Option JSVal :=
  match ws with
  | .ret => (w, none)
  | .selfReschedule s d => (schedule w s d, none)
  | .throwVal v => (w, some v)

/-- The catch clause expression `!!e && e || new Error(e)`: the thrown value itself
when it is truthy, otherwise a fresh `Error` wrapping it. -/
def errValue (e : JSVal) : JSVal :=
  if truthy e then e else JSVal.error e

/-- Source method `AsyncAction._execute(state, delay)`: invoke the work, catching a
thrown value; on a throw, unsubscribe the action and return the (coerced)
error value, otherwise return `undefined`.  When `this.work` has been
nulled by teardown, the call itself throws a `TypeError`, which the same
catch clause handles. -/
def _execute (w : World) (state : JSVal) (_delay : JSVal) :
    World × Option JSVal :=
  match w.act.work with
  | none =>
      (unsubscribe w,
       some (errValue (JSVal.error (JSVal.str "this.work is not a function"))))
  | some ws =>
      match runWork ws state w with
      | (w1, none) => (w1, none)
      | (w1, some e) => (unsubscribe w1, some (errValue e))

/-- Source method `AsyncAction.execute(state, delay)`: error out on a closed action,
clear `pending` before running the work, surface a truthy error result,
and otherwise dequeue the timer when the action did not reschedule itself
(`pending` still false and an id present). -/
def execute (w : World) (state : JSVal) (delay : JSVal) :
    World × Option JSVal :=
  if w.act.closed then
    (w, some (JSVal.error (JSVal.str "executing a cancelled action")))
  else
    let w0 : World := { w with act := { w.act with pending := false } }
    let r := _execute w0 state delay
    if (r.2.map truthy).getD false then r
    else
      match r.1.act.pending, r.1.act.id with
      | false, some i =>
          let rc := recycleAsyncId r.1 i JSVal.null
          ({ rc.1 with act := { rc.1.act with id := rc.2 } }, none)
      | _, _ => (r.1, none)

/-- A concrete action already scheduled once: delay 5 was recorded, timer
handle 3 is live, work returns normally. -/
def sampleAct : ActionState :=
  { closed := false, pending := true, state := JSVal.num 1,
    delay := JSVal.num 5, id := some 3, work := some WorkSpec.ret,
    schedulerRef := true }

/-- A concrete world around `sampleAct`: the action has identity 7 and
sits in the scheduler list; the runtime has issued handles up to 3 and
handle 3 is live. -/
def sampleW : World :=
  { act := sampleAct, aid := 7, actions := [7], nextId := 3, live := [3] }

/-- A fresh, never-scheduled action in the same scheduler. -/
def freshW : World :=
  { act := { closed := false, pending := false, state := JSVal.undef,
             delay := JSVal.undef, id := none, work := some WorkSpec.ret,
             schedulerRef := true },
    aid := 7, actions := [7], nextId := 0, live := [] }

example : (schedule sampleW (JSVal.num 2) (JSVal.num 5)).act.id = some 3 := by decide
example : (schedule sampleW (JSVal.num 2) (JSVal.num 9)).act.id = some 4 := by decide
example : (schedule sampleW (JSVal.num 2) (JSVal.num 9)).live = [4] := by decide
example : (schedule freshW (JSVal.num 2) (JSVal.num 9)).act.id = some 1 := by decide
example : (execute sampleW (JSVal.num 1) (JSVal.num 5)).1.act.id = none := by decide
example : (execute sampleW (JSVal.num 1) (JSVal.num 5)).1.live = [] := by decide
example : (execute sampleW (JSVal.num 1) (JSVal.num 5)).1.act.closed = false := by decide
example : unsubscribe (unsubscribe sampleW) = unsubscribe sampleW := by decide

/-! Helper lemmas about `schedule` and `unsubscribe`, shared by the claim
theorems below. -/

theorem schedule_act_closed (w : World) (s d : JSVal) :
    (schedule w s d).act.closed = w.act.closed := by
  obtain ⟨⟨c, p, st, dl, i, wk, sc⟩, aid, acts, nid, lv⟩ := w
  cases c with
  | true => simp [schedule]
  | false =>
    cases i with
    | none => simp [schedule, requestAsyncId, setInterval, idTruthy]
    | some j =>
      simp only [schedule, recycleAsyncId, clearInterval]
      split_ifs <;>
        simp_all [idTruthy, requestAsyncId, setInterval]

theorem schedule_act_pending (w : World) (s d : JSVal)
    (h : w.act.closed = false) :
    (schedule w s d).act.pending = true := by
  obtain ⟨⟨c, p, st, dl, i, wk, sc⟩, aid, acts, nid, lv⟩ := w
  simp only [ActionState.closed] at h
  subst h
  cases i with
  | none => simp [schedule, requestAsyncId, setInterval, idTruthy]
  | some j =>
    simp only [schedule, recycleAsyncId, clearInterval]
    split_ifs <;>
      simp_all [idTruthy, requestAsyncId, setInterval]

theorem schedule_act_state (w : World) (s d : JSVal)
    (h : w.act.closed = false) :
    (schedule w s d).act.state = s := by
  obtain ⟨⟨c, p, st, dl, i, wk, sc⟩, aid, acts, nid, lv⟩ := w
  simp only [ActionState.closed] at h
  subst h
  cases i with
  | none => simp [schedule, requestAsyncId, setInterval, idTruthy]
  | some j =>
    simp only [schedule, recycleAsyncId, clearInterval]
    split_ifs <;>
      simp_all [idTruthy, requestAsyncId, setInterval]

theorem unsubscribe_act_closed (w : World) :
    (unsubscribe w).act.closed = true := by
  obtain ⟨⟨c, p, st, dl, i, wk, sc⟩, aid, acts, nid, lv⟩ := w
  cases c with
  | true => simp [unsubscribe]
  | false =>
    cases i with
    | none => simp [unsubscribe, _unsubscribe]
    | some j =>
      simp only [unsubscribe, _unsubscribe, recycleAsyncId, clearInterval]
      split_ifs <;> simp_all

theorem unsubscribe_of_closed (w : World) (h : w.act.closed = true) :
    unsubscribe w = w := by
  simp [unsubscribe, h]

theorem unsubscribe_idem (w : World) :
    unsubscribe (unsubscribe w) = unsubscribe w :=
  unsubscribe_of_closed (unsubscribe w) (unsubscribe_act_closed w)

/-- World `sampleW` with the action already cancelled. -/
def closedW : World :=
  { sampleW with act := { sampleAct with closed := true } }

/-- C3: No execution after cancellation — on an action with `closed = true`,
`execute` returns the executing-a-cancelled-action `Error` value and
leaves the whole world (action fields, action list, timers) unchanged; in
particular the work is not invoked. -/
theorem execute_after_cancellation (w : World) (st dl : JSVal)
    (h : w.act.closed = true) :
    execute w st dl =
      (w, some (JSVal.error (JSVal.str "executing a cancelled action"))) := by
  simp [execute, h]

/-- Witness for `execute_after_cancellation` at a concrete closed world. -/
theorem execute_after_cancellation_witness :
    closedW.act.closed = true ∧
    execute closedW (JSVal.num 1) (JSVal.num 5) =
      (closedW, some (JSVal.error (JSVal.str "executing a cancelled action"))) :=
  ⟨by decide,
   execute_after_cancellation closedW (JSVal.num 1) (JSVal.num 5) (by decide)⟩

/-- C6: Scheduling a cancelled action is a silent no-op — with
`closed = true`, `schedule` returns the world completely unchanged: no
field written, no timer recycled or requested, and no error raised. -/
theorem schedule_on_closed_noop (w : World) (s d : JSVal)
    (h : w.act.closed = true) :
    schedule w s d = w := by
  simp [schedule, h]

/-- Witness for `schedule_on_closed_noop` at a concrete closed world. -/
theorem schedule_on_closed_noop_witness :
    closedW.act.closed = true ∧
    schedule closedW (JSVal.num 9) (JSVal.num 1) = closedW :=
  ⟨by decide, schedule_on_closed_noop closedW (JSVal.num 9) (JSVal.num 1) (by decide)⟩

/-- C7: Last write wins on state — on a non-closed action, `schedule`
overwrites the `state` field with the new argument unconditionally, so
after `schedule s1 d1` followed by `schedule s2 d2` the stored state is
`s2`. -/
theorem schedule_last_write_wins (w : World) (s1 d1 s2 d2 : JSVal)
    (h : w.act.closed = false) :
    (schedule w s1 d1).act.state = s1 ∧
    (schedule (schedule w s1 d1) s2 d2).act.state = s2 := by
  refine ⟨schedule_act_state w s1 d1 h, schedule_act_state _ s2 d2 ?_⟩
  rw [schedule_act_closed]
  exact h

/-- Witness for `schedule_last_write_wins` on a concrete open action. -/
theorem schedule_last_write_wins_witness :
    sampleW.act.closed = false ∧
    ((schedule sampleW (JSVal.num 10) (JSVal.num 5)).act.state = JSVal.num 10 ∧
     (schedule (schedule sampleW (JSVal.num 10) (JSVal.num 5))
        (JSVal.num 11) (JSVal.num 7)).act.state = JSVal.num 11) :=
  ⟨by decide,
   schedule_last_write_wins sampleW (JSVal.num 10) (JSVal.num 5)
     (JSVal.num 11) (JSVal.num 7) (by decide)⟩

/-- C8: Idempotent cancellation — for every `n ≥ 1`, iterating
`unsubscribe` `n` times equals a single call, and after any call `closed`
is true; the `_unsubscribe` teardown only runs inside the first call (the
guard in `unsubscribe` makes every later call return its input). -/
theorem unsubscribe_idempotent (w : World) (n : Nat) (h : 1 ≤ n) :
    Nat.iterate unsubscribe n w = unsubscribe w ∧
    (Nat.iterate unsubscribe n w).act.closed = true := by
  obtain ⟨m, rfl⟩ : ∃ m, n = m + 1 := ⟨n - 1, by omega⟩
  have hiter : Nat.iterate unsubscribe (m + 1) w = unsubscribe w := by
    induction m with
    | zero => rfl
    | succ k ih =>
        rw [Function.iterate_succ_apply', ih (by omega), unsubscribe_idem]
  exact ⟨hiter, by rw [hiter]; exact unsubscribe_act_closed w⟩

/-- Witness for `unsubscribe_idempotent`: three cancellations of a
concrete action equal one. -/
theorem unsubscribe_idempotent_witness :
    (1 : Nat) ≤ 3 ∧
    (Nat.iterate unsubscribe 3 sampleW = unsubscribe sampleW ∧
     (Nat.iterate unsubscribe 3 sampleW).act.closed = true) :=
  ⟨by decide, unsubscribe_idempotent sampleW 3 (by decide)⟩

/-- C1: Timer reuse law — on a non-closed action whose recorded delay is
the number `d` and whose live timer handle is `i` (runtime handles are
positive and never exceed the issue counter `nextId`): rescheduling with
the same delay `d` keeps handle `i` and touches no timer, while
rescheduling with a different delay `d'` cancels timer `i` (erased from
the live set) and stores a freshly issued handle distinct from `i`. -/
theorem schedule_timer_reuse (w : World) (s s' : JSVal) (d d' : Int)
    (i : Nat)
    (hclosed : w.act.closed = false)
    (hdelay : w.act.delay = JSVal.num d)
    (hid : w.act.id = some i)
    (hpos : 0 < i)
    (hle : i ≤ w.nextId)
    (hne : d' ≠ d) :
    ((schedule w s (JSVal.num d)).act.id = some i ∧
     (schedule w s (JSVal.num d)).live = w.live ∧
     (schedule w s (JSVal.num d)).nextId = w.nextId) ∧
    ((schedule w s' (JSVal.num d')).act.id = some (w.nextId + 1) ∧
     w.nextId + 1 ≠ i ∧
     (schedule w s' (JSVal.num d')).live =
       (w.nextId + 1) :: w.live.erase i) := by
  have hi0 : i ≠ 0 := hpos.ne'
  have hdd : d ≠ d' := Ne.symm hne
  constructor
  · simp [schedule, hclosed, hid, recycleAsyncId, hdelay, idTruthy, hi0]
  · refine ⟨?_, by omega, ?_⟩ <;>
      simp [schedule, hclosed, hid, recycleAsyncId, hdelay, hdd, idTruthy,
        clearInterval, requestAsyncId, setInterval]

/-- Witness for `schedule_timer_reuse`: handle 3 at delay 5 is reused by a
same-delay reschedule and replaced by handle 4 at delay 9. -/
theorem schedule_timer_reuse_witness :
    sampleW.act.closed = false ∧
    (((schedule sampleW (JSVal.num 2) (JSVal.num 5)).act.id = some 3 ∧
      (schedule sampleW (JSVal.num 2) (JSVal.num 5)).live = sampleW.live ∧
      (schedule sampleW (JSVal.num 2) (JSVal.num 5)).nextId = sampleW.nextId) ∧
     ((schedule sampleW (JSVal.num 2) (JSVal.num 9)).act.id =
        some (sampleW.nextId + 1) ∧
      sampleW.nextId + 1 ≠ 3 ∧
      (schedule sampleW (JSVal.num 2) (JSVal.num 9)).live =
        (sampleW.nextId + 1) :: sampleW.live.erase 3)) :=
  ⟨by decide,
   schedule_timer_reuse sampleW (JSVal.num 2) (JSVal.num 2) 5 9 3
     (by decide) (by decide) (by decide) (by decide) (by decide) (by decide)⟩

/-- C5: Request-iff law inside `schedule` — on a non-closed action, a
fresh timer is requested (the runtime issue counter advances and the new
handle is stored) exactly when no id survives recycling: when the action
had no id at entry, or when recycling cleared it (`delay` null or distinct
from the recorded delay); when the recycle keeps the handle (same non-null
delay, nonzero handle), no request happens and the counter is unchanged. -/
theorem schedule_request_iff (w : World) (s d : JSVal) (i : Nat)
    (hclosed : w.act.closed = false) :
    (w.act.id = none →
       (schedule w s d).act.id = some (w.nextId + 1) ∧
       (schedule w s d).nextId = w.nextId + 1) ∧
    (w.act.id = some i → i ≠ 0 → d ≠ JSVal.null → w.act.delay = d →
       (schedule w s d).act.id = some i ∧
       (schedule w s d).nextId = w.nextId) ∧
    (w.act.id = some i → (d = JSVal.null ∨ w.act.delay ≠ d) →
       (schedule w s d).act.id = some (w.nextId + 1) ∧
       (schedule w s d).nextId = w.nextId + 1) := by
  refine ⟨fun hid => ?_, fun hid hi0 hdn hdeq => ?_, fun hid hnot => ?_⟩
  · simp [schedule, hclosed, hid, idTruthy, requestAsyncId, setInterval]
  · simp [schedule, hclosed, hid, recycleAsyncId, hdn, hdeq, idTruthy, hi0]
  · have hcond : ¬(d ≠ JSVal.null ∧ w.act.delay = d) := by
      rcases hnot with h | h
      · exact fun hc => hc.1 h
      · exact fun hc => h hc.2
    simp [schedule, hclosed, hid, recycleAsyncId, hcond, idTruthy,
      clearInterval, requestAsyncId, setInterval]

/-- Witness for `schedule_request_iff`: on `sampleW` (id 3, delay 5), a
same-delay reschedule keeps id 3 without touching the issue counter, and a
different-delay reschedule issues handle 4. -/
theorem schedule_request_iff_witness :
    sampleW.act.closed = false ∧
    ((schedule sampleW (JSVal.num 2) (JSVal.num 5)).act.id = some 3 ∧
     (schedule sampleW (JSVal.num 2) (JSVal.num 5)).nextId = sampleW.nextId) ∧
    ((schedule sampleW (JSVal.num 2) (JSVal.num 9)).act.id =
       some (sampleW.nextId + 1) ∧
     (schedule sampleW (JSVal.num 2) (JSVal.num 9)).nextId =
       sampleW.nextId + 1) :=
  ⟨by decide,
   (schedule_request_iff sampleW (JSVal.num 2) (JSVal.num 5) 3
       (by decide)).2.1 (by decide) (by decide) (by decide) (by decide),
   (schedule_request_iff sampleW (JSVal.num 2) (JSVal.num 9) 3
       (by decide)).2.2 (by decide) (Or.inr (by decide))⟩

/-- World `sampleW` with work that reschedules this same action at delay 5. -/
def reschedW : World :=
  { sampleW with
    act := { sampleAct with
             work := some (WorkSpec.selfReschedule (JSVal.num 2) (JSVal.num 5)) } }

/-- World `sampleW` with work that throws an `Error` value. -/
def throwW : World :=
  { sampleW with
    act := { sampleAct with
             work := some (WorkSpec.throwVal (JSVal.error (JSVal.str "boom"))) } }

/-- C2: Self-reschedule survives the cleanup in `execute` — on a non-closed
action whose work calls `schedule` on that same action (so `pending` is
back to true when the work returns), `execute` returns exactly the world
the inner `schedule` built, with no timer teardown appended; whereas with
work that does not reschedule, the post-execution check clears the id and
cancels the timer. -/
theorem execute_self_reschedule (w : World) (s d st dl : JSVal) (i : Nat)
    (hclosed : w.act.closed = false) :
    (w.act.work = some (WorkSpec.selfReschedule s d) →
       execute w st dl =
         (schedule { w with act := { w.act with pending := false } } s d,
          none) ∧
       (execute w st dl).1.act.pending = true) ∧
    (w.act.work = some WorkSpec.ret → w.act.id = some i →
       (execute w st dl).1.act.id = none ∧
       (execute w st dl).1.live = w.live.erase i) := by
  constructor
  · intro hwork
    have hp : (schedule { w with act := { w.act with pending := false } }
        s d).act.pending = true :=
      schedule_act_pending _ s d hclosed
    have heq : execute w st dl =
        (schedule { w with act := { w.act with pending := false } } s d,
         none) := by
      simp [execute, hclosed, _execute, hwork, runWork, schedule_act_pending]
    exact ⟨heq, by rw [heq]; exact hp⟩
  · intro hwork hid
    simp [execute, hclosed, _execute, hwork, runWork, hid, recycleAsyncId,
      clearInterval]

/-- Witness for `execute_self_reschedule`: a rescheduling work keeps the
timer, a plain work lets `execute` dequeue handle 3. -/
theorem execute_self_reschedule_witness :
    reschedW.act.closed = false ∧
    (execute reschedW (JSVal.num 1) (JSVal.num 5) =
       (schedule { reschedW with act := { reschedW.act with pending := false } }
          (JSVal.num 2) (JSVal.num 5), none) ∧
     (execute reschedW (JSVal.num 1) (JSVal.num 5)).1.act.pending = true) ∧
    ((execute sampleW (JSVal.num 1) (JSVal.num 5)).1.act.id = none ∧
     (execute sampleW (JSVal.num 1) (JSVal.num 5)).1.live =
       sampleW.live.erase 3) :=
  ⟨by decide,
   (execute_self_reschedule reschedW (JSVal.num 2) (JSVal.num 5)
       (JSVal.num 1) (JSVal.num 5) 3 (by decide)).1 (by decide),
   (execute_self_reschedule sampleW (JSVal.num 2) (JSVal.num 5)
       (JSVal.num 1) (JSVal.num 5) 3 (by decide)).2 (by decide) (by decide)⟩

/-- C4: Failure tears down the action — when the work of a non-closed action
throws a (truthy) value `v`, `execute` returns `v` as a value, and the
resulting world is fully torn down: `closed`, fields nulled, `pending`
false, scheduler reference severed, the action removed from its
scheduler list, the id cleared and any live timer cancelled. -/
theorem execute_failure_teardown (w : World) (v st dl : JSVal)
    (hclosed : w.act.closed = false)
    (hwork : w.act.work = some (WorkSpec.throwVal v))
    (htr : truthy v = true) :
    execute w st dl =
      ({ act := { closed := true, pending := false, state := JSVal.null,
                  delay := JSVal.null, id := none, work := none,
                  schedulerRef := false },
         aid := w.aid, actions := w.actions.erase w.aid,
         nextId := w.nextId,
         live := w.act.id.elim w.live (fun j => w.live.erase j) },
       some v) := by
  rcases hid : w.act.id with _ | i <;>
    simp [execute, hclosed, _execute, hwork, runWork, errValue, htr,
      unsubscribe, _unsubscribe, hid, recycleAsyncId, clearInterval]

/-- Witness for `execute_failure_teardown` at a concrete throwing world. -/
theorem execute_failure_teardown_witness :
    truthy (JSVal.error (JSVal.str "boom")) = true ∧
    execute throwW (JSVal.num 1) (JSVal.num 5) =
      ({ act := { closed := true, pending := false, state := JSVal.null,
                  delay := JSVal.null, id := none, work := none,
                  schedulerRef := false },
         aid := throwW.aid, actions := throwW.actions.erase throwW.aid,
         nextId := throwW.nextId,
         live := throwW.act.id.elim throwW.live (fun j => throwW.live.erase j) },
       some (JSVal.error (JSVal.str "boom"))) :=
  ⟨by decide,
   execute_failure_teardown throwW (JSVal.error (JSVal.str "boom"))
     (JSVal.num 1) (JSVal.num 5) (by decide) (by decide) (by decide)⟩

/-- C9: Successful execution without reschedule tears down only the timer
— with work that returns normally, `execute` clears the id and cancels the
live timer but does not unsubscribe: `closed` stays false, `work`, the
scheduler reference, `state`, `delay` and the action list are untouched,
and a later independent `schedule` call still operates (it sets `pending`
and overwrites `state`). -/
theorem execute_success_keeps_action (w : World) (st dl s2 d2 : JSVal)
    (i : Nat)
    (hclosed : w.act.closed = false)
    (hwork : w.act.work = some WorkSpec.ret)
    (hid : w.act.id = some i) :
    execute w st dl =
      ({ act := { closed := false, pending := false, state := w.act.state,
                  delay := w.act.delay, id := none,
                  work := some WorkSpec.ret,
                  schedulerRef := w.act.schedulerRef },
         aid := w.aid, actions := w.actions, nextId := w.nextId,
         live := w.live.erase i }, none) ∧
    (schedule (execute w st dl).1 s2 d2).act.pending = true ∧
    (schedule (execute w st dl).1 s2 d2).act.state = s2 := by
  have heq : execute w st dl =
      ({ act := { closed := false, pending := false, state := w.act.state,
                  delay := w.act.delay, id := none,
                  work := some WorkSpec.ret,
                  schedulerRef := w.act.schedulerRef },
         aid := w.aid, actions := w.actions, nextId := w.nextId,
         live := w.live.erase i }, none) := by
    simp [execute, hclosed, _execute, hwork, runWork, hid, recycleAsyncId,
      clearInterval]
  refine ⟨heq, ?_, ?_⟩ <;> rw [heq]
  · exact schedule_act_pending _ s2 d2 rfl
  · exact schedule_act_state _ s2 d2 rfl

/-- Witness for `execute_success_keeps_action` on `sampleW`. -/
theorem execute_success_keeps_action_witness :
    sampleW.act.closed = false ∧
    (execute sampleW (JSVal.num 1) (JSVal.num 5) =
       ({ act := { closed := false, pending := false,
                   state := sampleW.act.state, delay := sampleW.act.delay,
                   id := none, work := some WorkSpec.ret,
                   schedulerRef := sampleW.act.schedulerRef },
          aid := sampleW.aid, actions := sampleW.actions,
          nextId := sampleW.nextId, live := sampleW.live.erase 3 }, none) ∧
     (schedule (execute sampleW (JSVal.num 1) (JSVal.num 5)).1
        (JSVal.num 8) (JSVal.num 2)).act.pending = true ∧
     (schedule (execute sampleW (JSVal.num 1) (JSVal.num 5)).1
        (JSVal.num 8) (JSVal.num 2)).act.state = JSVal.num 8) :=
  ⟨by decide,
   execute_success_keeps_action sampleW (JSVal.num 1) (JSVal.num 5)
     (JSVal.num 8) (JSVal.num 2) 3 (by decide) (by decide) (by decide)⟩

/-- C10: A work failure is never conflated with success — the coerced
error value `errValue v` (`!!e && e || new Error(e)`) is truthy for every
thrown `v`, including falsy ones; when work throws `v`, `_execute` and
`execute` both report `some (errValue v)`; when work returns normally,
`execute` reports no error. -/
theorem execute_error_branch_iff (w : World) (v st dl : JSVal)
    (hclosed : w.act.closed = false) :
    truthy (errValue v) = true ∧
    (w.act.work = some (WorkSpec.throwVal v) →
       (_execute { w with act := { w.act with pending := false } } st dl).2 =
         some (errValue v) ∧
       (execute w st dl).2 = some (errValue v)) ∧
    (w.act.work = some WorkSpec.ret → (execute w st dl).2 = none) := by
  have htr : truthy (errValue v) = true := by
    unfold errValue
    split
    · assumption
    · rfl
  refine ⟨htr, fun hwork => ⟨?_, ?_⟩, fun hwork => ?_⟩
  · simp [_execute, hwork, runWork]
  · simp [execute, hclosed, _execute, hwork, runWork, htr]
  · rcases hid : w.act.id with _ | i <;>
      simp [execute, hclosed, _execute, hwork, runWork, hid, recycleAsyncId,
        clearInterval]

/-- Witness for `execute_error_branch_iff`: a thrown `Error` surfaces from
`execute` on `throwW`, and plain work on `sampleW` reports no error. -/
theorem execute_error_branch_iff_witness :
    throwW.act.closed = false ∧
    truthy (errValue (JSVal.error (JSVal.str "boom"))) = true ∧
    (execute throwW (JSVal.num 1) (JSVal.num 5)).2 =
      some (errValue (JSVal.error (JSVal.str "boom"))) ∧
    (execute sampleW (JSVal.num 1) (JSVal.num 5)).2 = none :=
  ⟨by decide,
   (execute_error_branch_iff throwW (JSVal.error (JSVal.str "boom"))
       (JSVal.num 1) (JSVal.num 5) (by decide)).1,
   ((execute_error_branch_iff throwW (JSVal.error (JSVal.str "boom"))
       (JSVal.num 1) (JSVal.num 5) (by decide)).2.1 (by decide)).2,
   (execute_error_branch_iff sampleW (JSVal.error (JSVal.str "boom"))
       (JSVal.num 1) (JSVal.num 5) (by decide)).2.2 (by decide)⟩

end RxScheduler
